import Mathlib

/-!
Verification of the DocuVision document-ingestion service
(`backend/app/main.py`) against its specification.

The Python service is shallowly embedded: pure helpers become Lean
functions, the request pipeline becomes explicit state passing over a
`ServerState`, outbound HTTP calls and the database connection are
modelled as explicit parameters, and raised `HTTPException`s become
`Except HttpError` results.  Times are natural numbers counted in
minutes.  Byte strings are lists of naturals.
-/

namespace DocuVision

/-- An `HTTPException` as raised by the service: status code plus detail. -/
structure HttpError where
  statusCode : Nat
  detail : String
  deriving DecidableEq, Repr

/- Error values raised by `main.py`, with the literal detail strings. -/

/-- The 401 raised by `get_current_user` for any token failure. -/
def credentials_exception : HttpError :=
  ⟨401, "Could not validate credentials"⟩

/-- The 401 raised by `login_for_access_token` on bad credentials. -/
def incorrect_credentials : HttpError :=
  ⟨401, "Incorrect email or password"⟩

/-- The 400 raised by `validate_file` when no filename is present. -/
def no_file_uploaded : HttpError :=
  ⟨400, "No file uploaded"⟩

/-- The 415 raised by `validate_file` for a disallowed content type. -/
def unsupported_media_type : HttpError :=
  ⟨415, "Unsupported file type. Allowed types: image/jpeg, image/png, application/pdf"⟩

/-- The 413 raised by `validate_file` once the running size count exceeds
the maximum (Python renders `10*1024*1024/1024/1024` as `10.0`). -/
def file_too_large : HttpError :=
  ⟨413, "File too large. Max size: 10.0MB"⟩

/-- The 404 raised by `get_document_endpoint` when no record matches. -/
def document_not_found : HttpError :=
  ⟨404, "Document not found"⟩

/-- The 422 produced by the `RequestValidationError` handler for a query
parameter violating its declared bounds. -/
def validation_error : HttpError :=
  ⟨422, "Validation error"⟩

/-- The 502 raised by `ocr_space_extract` on a non-2xx provider status. -/
def ocr_unavailable : HttpError :=
  ⟨502, "OCR service unavailable"⟩

/-- The 504 raised by `ocr_space_extract` on provider timeout. -/
def ocr_timeout : HttpError :=
  ⟨504, "OCR service timeout"⟩

/-- The 422 raised by `ocr_space_extract` when the provider returns zero
parsed results. -/
def no_text_detected : HttpError :=
  ⟨422, "No text detected in document"⟩

/-- The 422 raised by `analyze_document_with_openrouter` when the model
reply cannot be parsed as the expected JSON structure. -/
def invalid_ai_response : HttpError :=
  ⟨422, "AI returned invalid response format"⟩

/-- The 502 raised by `analyze_document_with_openrouter` on a non-2xx
provider status. -/
def analysis_unavailable : HttpError :=
  ⟨502, "AI analysis service unavailable"⟩

/- Configuration (the `Settings` model, fields the claims touch). -/

/-- `Settings.max_file_size = 10 * 1024 * 1024` bytes. -/
def max_file_size : Nat := 10 * 1024 * 1024

/-- `Settings.allowed_file_types`. -/
def allowed_file_types : List String :=
  ["image/jpeg", "image/png", "application/pdf"]

/-- `Settings.jwt_expire_minutes = 30`. -/
def jwt_expire_minutes : Nat := 30

/- Authentication: users, tokens. -/

/-- A row of the `users` table / the `UserInDB` model. -/
structure UserInDB where
  id : String
  email : String
  hashed_password : String
  is_active : Bool := true
  deriving DecidableEq, Repr

/-- A signed JWT as produced by `jose.jwt.encode`: the claims actually
used by the service (`sub` and `exp`, in minutes), plus the key that
signed it.  Keeping the signing key in the token models the signature:
`jwt.decode` succeeds exactly when the verifier's key equals it. -/
structure Jwt where
  sub : Option String
  exp : Nat
  key : String
  deriving DecidableEq, Repr

/-- Failure modes of `jose.jwt.decode` (both arrive as `JWTError`). -/
inductive JwtDecodeError where
  | invalidSignature
  | expired
  deriving DecidableEq, Repr

/-- Model of `jose.jwt.decode`: rejects a signature made with a different
key, rejects an expired token (`exp < now`), otherwise yields the claims. -/
def jwt_decode (token : Jwt) (key : String) (now : Nat) :
    Except JwtDecodeError Jwt :=
  if token.key ≠ key then .error .invalidSignature
  else if token.exp < now then .error .expired
  else .ok token

/-- `create_access_token` (main.py lines 211-223): copies the claims,
sets `exp` to now + `expires_delta` when that argument is a truthy
`timedelta` (Python: `if expires_delta:`, so a zero delta is falsy), and
to now + 15 minutes otherwise, then signs with the configured key. -/
def create_access_token (key : String) (now : Nat) (sub : Option String)
    (expires_delta : Option Nat) : Jwt :=
  let expire : Nat :=
    match expires_delta with
    | some d => if d ≠ 0 then now + d else now + 15
    | none => now + 15
  { sub := sub, exp := expire, key := key }

/-- `get_current_user` (main.py lines 225-253): decode the token, read
the `sub` claim, look the email up in the `users` table; any failure is
the single 401 `credentials_exception`. -/
def get_current_user (users : List UserInDB) (key : String) (now : Nat)
    (token : Jwt) : Except HttpError UserInDB :=
  match jwt_decode token key now with
  | .error _ => .error credentials_exception
  | .ok payload =>
    match payload.sub with
    | none => .error credentials_exception
    | some email =>
      match users.find? (fun u => decide (u.email = email)) with
      | none => .error credentials_exception
      | some u => .ok u

/-- `login_for_access_token` (main.py lines 434-458): look the user up by
email, verify the password with `pwd_context.verify` (modelled by the
`verify` parameter since bcrypt verification is external), and on success
issue a token with an explicit `expires_delta` of the configured
`jwt_expire_minutes`. -/
def login_for_access_token (verify : String → String → Bool)
    (users : List UserInDB) (key : String) (now : Nat)
    (username password : String) : Except HttpError Jwt :=
  match users.find? (fun u => decide (u.email = username)) with
  | none => .error incorrect_credentials
  | some u =>
    if verify password u.hashed_password then
      .ok (create_access_token key now (some u.email) (some jwt_expire_minutes))
    else .error incorrect_credentials

/-- Line 494 of `create_document_endpoint`:
`api_key = ocr_api_key or os.getenv("OCR_API_KEY", "helloworld")`.
Python `or` falls through when the query parameter is `None` or the
empty string; `os.getenv` falls back to `"helloworld"` only when the
environment variable is absent. -/
def chooseOcrKey (ocr_api_key : Option String) (envKey : Option String) :
    String :=
  match ocr_api_key with
  | some s => if s ≠ "" then s else envKey.getD "helloworld"
  | none => envKey.getD "helloworld"

/- Document records and the document store. -/

/-- The `DocumentAnalysisResult` model: document type, summary, and the
open mapping of extracted fields (modelled as an association list). -/
structure DocumentAnalysisResult where
  document_type : String
  summary : String
  extracted_data : List (String × String)
  deriving DecidableEq, Repr

/-- A row of the `documents` table (`created_at` in minutes). -/
structure DocumentRow where
  id : String
  user_id : String
  filename : String
  ocr_text : String
  analysis : Option DocumentAnalysisResult
  created_at : Nat
  deriving DecidableEq, Repr

/-- The comparison realising `ORDER BY created_at DESC`: `a` may precede
`b` when `a` was created no earlier than `b`. -/
def docGE (a b : DocumentRow) : Prop := b.created_at ≤ a.created_at

instance : DecidableRel docGE := fun a b =>
  inferInstanceAs (Decidable (b.created_at ≤ a.created_at))

instance : IsTotal DocumentRow docGE :=
  ⟨fun a b => Nat.le_total b.created_at a.created_at⟩

instance : IsTrans DocumentRow docGE :=
  ⟨fun _ _ _ hab hbc => Nat.le_trans hbc hab⟩

/-- `get_document` (main.py lines 344-359):
`SELECT * FROM documents WHERE id = $1 AND user_id = $2`. -/
def get_document (db : List DocumentRow) (doc_id user_id : String) :
    Option DocumentRow :=
  db.find? (fun r => decide (r.id = doc_id) && decide (r.user_id = user_id))

/-- `list_documents` (main.py lines 361-387):
`SELECT * FROM documents WHERE user_id = $1 ORDER BY created_at DESC
LIMIT $2 OFFSET $3`. -/
def list_documents (db : List DocumentRow) (user_id : String)
    (limit offset : Nat) : List DocumentRow :=
  ((((db.filter (fun r => decide (r.user_id = user_id))).insertionSort
    docGE).drop offset).take limit)

/-- `get_document_endpoint` (main.py lines 546-561): a missing record,
of whatever cause, is the single 404. -/
def get_document_endpoint (db : List DocumentRow) (doc_id user_id : String) :
    Except HttpError DocumentRow :=
  match get_document db doc_id user_id with
  | none => .error document_not_found
  | some d => .ok d

/-- `list_documents_endpoint` (main.py lines 534-544): FastAPI validates
`limit = Query(10, gt=0, le=100)` and `offset = Query(0, ge=0)` before
the handler runs; a violation is rendered by the
`RequestValidationError` handler as a 422. -/
def list_documents_endpoint (db : List DocumentRow) (user_id : String)
    (limit offset : Int) : Except HttpError (List DocumentRow) :=
  if ¬(0 < limit ∧ limit ≤ 100) then .error validation_error
  else if ¬(0 ≤ offset) then .error validation_error
  else .ok (list_documents db user_id limit.toNat offset.toNat)

/- File intake. -/

/-- An uploaded file as the handler sees it: declared metadata plus the
underlying spooled stream, modelled as the list of chunks Python's file
iteration yields together with the current read position (an index into
the chunk list; `seek(0)` resets it to zero).  Bytes are naturals. -/
structure UploadFile where
  filename : String
  contentType : String
  chunks : List (List Nat)
  pos : Nat
  deriving DecidableEq, Repr

/-- Total byte count of a list of chunks. -/
def totalLen (l : List (List Nat)) : Nat := (l.map List.length).sum

/-- The size-counting loop of `validate_file` (main.py lines 280-287):
accumulate each chunk's length into `acc`, raising the 413 the instant
the running count exceeds `maxSize`.  Returns the loop's outcome paired
with the number of chunks consumed from the stream. -/
def sizeScan (maxSize acc : Nat) :
    List (List Nat) → Except HttpError Nat × Nat
  | [] => (.ok acc, 0)
  | c :: rest =>
    if maxSize < acc + c.length then (.error file_too_large, 1)
    else ((sizeScan maxSize (acc + c.length) rest).1,
          (sizeScan maxSize (acc + c.length) rest).2 + 1)

/-- `validate_file` (main.py lines 266-290): reject a missing filename
(400), a disallowed content type (415) and a body whose running size
count exceeds `max_file_size` (413); on success `file.file.seek(0)`
rewinds the stream and the file is returned. -/
def validate_file (file : UploadFile) : Except HttpError UploadFile :=
  if file.filename = "" then .error no_file_uploaded
  else if ¬ allowed_file_types.contains file.contentType then
    .error unsupported_media_type
  else
    match (sizeScan max_file_size 0 (file.chunks.drop file.pos)).1 with
    | .error e => .error e
    | .ok _ => .ok { file with pos := 0 }

/-- Bytes an exhaustive read (`for chunk in file.file`) yields from the
stream's current position; this is what lines 486-488 write to the
temporary file. -/
def readRemaining (file : UploadFile) : List Nat :=
  (file.chunks.drop file.pos).flatten

/- Text extraction client. -/

/-- The parts of an OCR.space JSON reply that `ocr_space_extract` reads:
the processing-error flag, its message, and the `ParsedText` of each
entry of `ParsedResults`. -/
structure OcrBody where
  isErroredOnProcessing : Bool
  errorMessage : Option String
  parsedResults : List String
  deriving DecidableEq, Repr

/-- Outcome of the HTTP POST to the OCR provider. -/
inductive OcrReply where
  | timeout
  | response (statusCode : Nat) (body : OcrBody)
  deriving DecidableEq, Repr

/-- httpx `Response.raise_for_status` raises unless the status is 2xx. -/
def is_success (statusCode : Nat) : Prop :=
  200 ≤ statusCode ∧ statusCode ≤ 299

instance : DecidablePred is_success := fun s =>
  inferInstanceAs (Decidable (200 ≤ s ∧ s ≤ 299))

/-- `ocr_space_extract` (main.py lines 564-608): timeout is a 504,
non-2xx status a 502, a set processing-error flag a 422 carrying the
provider's message (`ErrorMessage` defaulting to "Unknown OCR error"),
an empty `ParsedResults` a 422, and otherwise the first parsed result's
`ParsedText` is returned verbatim. -/
def ocr_space_extract (reply : OcrReply) : Except HttpError String :=
  match reply with
  | .timeout => .error ocr_timeout
  | .response statusCode body =>
    if ¬ is_success statusCode then .error ocr_unavailable
    else if body.isErroredOnProcessing then
      .error ⟨422, "OCR error: " ++ body.errorMessage.getD "Unknown OCR error"⟩
    else
      match body.parsedResults with
      | [] => .error no_text_detected
      | t :: _ => .ok t

/- Document analysis client. -/

/-- Outcome of `json.loads(raw_output)` followed by
`DocumentAnalysisResult(**result)`: either the parsed structure, or a
`JSONDecodeError`/`ValueError`. -/
inductive ParseOutcome where
  | parsed (r : DocumentAnalysisResult)
  | parseFailure
  deriving DecidableEq, Repr

/-- A reply from the analysis provider: HTTP status, the textual
`raw_output` of the model, and the outcome of parsing that text. -/
structure AnalysisReply where
  statusCode : Nat
  rawOutput : String
  parse : ParseOutcome
  deriving DecidableEq, Repr

/-- `analyze_document_with_openrouter` (main.py lines 610-675): a
non-2xx provider status raises the 502; a reply whose text fails to
parse as the expected JSON structure raises the 422
`invalid_ai_response`; otherwise the parsed result is returned. -/
def analyze_document_with_openrouter (reply : AnalysisReply) :
    Except HttpError DocumentAnalysisResult :=
  if ¬ is_success reply.statusCode then .error analysis_unavailable
  else
    match reply.parse with
    | .parsed r => .ok r
    | .parseFailure => .error invalid_ai_response

/- The upload pipeline of `create_document_endpoint`. -/

/-- The environment of one upload request: the caller's `ocr_api_key`
query parameter, the `OCR_API_KEY` and `OPENROUTER_API_KEY` environment
variables, the outcomes of the two outbound calls (as functions of the
key sent and of the extracted text), the fresh document id, and the
current time. -/
structure ReqEnv where
  ocr_api_key : Option String
  ocrEnvKey : Option String
  openrouterKey : Option String
  ocrCall : String → Except HttpError String
  analysisCall : String → Except HttpError DocumentAnalysisResult
  newDocId : String
  now : Nat

/-- Server-side state an upload request touches: whether the request's
temporary file currently exists, whether a background cleanup of it is
scheduled, the key last sent to the OCR provider, and the documents
table. -/
structure ServerState where
  tempFileExists : Bool
  cleanupScheduled : Bool
  ocrKeySent : Option String
  docs : List DocumentRow
  deriving DecidableEq, Repr

/-- The `data` field of a successful upload response. -/
structure UploadData where
  document_id : String
  filename : String
  ocr_text : String
  analysis : Option DocumentAnalysisResult
  deriving DecidableEq, Repr

/-- Lines 498-501: the analysis stage runs only when
`OPENROUTER_API_KEY` is configured; otherwise the analysis is `None`. -/
def analysisStage (env : ReqEnv) (text : String) :
    Except HttpError (Option DocumentAnalysisResult) :=
  match env.openrouterKey with
  | none => .ok none
  | some _ => (env.analysisCall text).map some

/-- The body of `create_document_endpoint` (main.py lines 479-532), run
after its dependencies (`validate_file`, `get_current_user`) succeed:
write the temporary file, register `cleanup_file` on the request's
`BackgroundTasks`, call the OCR provider with the chosen key, optionally
run analysis, then insert the document row. -/
def create_document_endpoint (env : ReqEnv) (user : UserInDB)
    (file : UploadFile) (st : ServerState) :
    Except HttpError UploadData × ServerState :=
  let written := { st with tempFileExists := true }
  let scheduled := { written with cleanupScheduled := true }
  let apiKey := chooseOcrKey env.ocr_api_key env.ocrEnvKey
  let calling := { scheduled with ocrKeySent := some apiKey }
  match env.ocrCall apiKey with
  | .error e => (.error e, calling)
  | .ok text =>
    match analysisStage env text with
    | .error e => (.error e, calling)
    | .ok analysisOpt =>
      let row : DocumentRow :=
        ⟨env.newDocId, user.id, file.filename, text, analysisOpt, env.now⟩
      (.ok ⟨env.newDocId, file.filename, text, analysisOpt⟩,
        { calling with docs := calling.docs ++ [row] })

/-- `cleanup_file` (main.py lines 677-684): remove the temporary file if
it still exists; failures are logged and swallowed. -/
def cleanup_file (st : ServerState) : ServerState :=
  { st with tempFileExists := false }

/-- Starlette semantics of `BackgroundTasks`: tasks registered on the
injected object are attached to the endpoint's response and run after
that response is sent.  When the endpoint raises instead, the app-level
exception handler builds a fresh `JSONResponse` carrying no background
tasks, so a scheduled task never runs on an error path. -/
def finish_request (out : Except HttpError UploadData × ServerState) :
    Except HttpError UploadData × ServerState :=
  match out.1 with
  | .ok _ =>
    (out.1, if out.2.cleanupScheduled then cleanup_file out.2 else out.2)
  | .error _ => out

/-- A full upload request: FastAPI resolves the `validate_file`
dependency before the endpoint body runs (so a validation failure
reaches the client before any temporary file exists), then the framework
completes the request, running any background task attached to the
response. -/
def handle_upload (env : ReqEnv) (user : UserInDB) (file : UploadFile)
    (st : ServerState) : Except HttpError UploadData × ServerState :=
  match validate_file file with
  | .error e => (.error e, st)
  | .ok f => finish_request (create_document_endpoint env user f st)

/- Concrete sample values used by witnesses and counterexamples. -/

/-- Sample authenticated user. -/
def userW : UserInDB := ⟨"u1", "a@x.com", "hp", true⟩

/-- Sample small valid upload. -/
def fileSmall : UploadFile := ⟨"a.png", "image/png", [[1, 2], [3]], 0⟩

/-- Sample upload with no filename. -/
def fileNoName : UploadFile := ⟨"", "image/png", [[1]], 0⟩

/-- Sample upload one byte over the configured maximum size. -/
def bigFile : UploadFile :=
  ⟨"big.png", "image/png", [List.replicate (max_file_size + 1) 0], 0⟩

/-- Fresh server state: no temp file, nothing scheduled, empty table. -/
def stEmpty : ServerState := ⟨false, false, none, []⟩

/-- Environment whose OCR call succeeds and with no analysis key set. -/
def envNoAnalysis : ReqEnv :=
  ⟨none, none, none, fun _ => .ok "text", fun _ => .error invalid_ai_response,
    "doc1", 9⟩

/-- Environment whose OCR call fails with the 502. -/
def envOcrFail : ReqEnv :=
  ⟨none, none, none, fun _ => .error ocr_unavailable,
    fun _ => .error invalid_ai_response, "doc1", 9⟩

/-- Environment with an analysis key configured whose analysis provider
returns a 200 with unparseable text. -/
def envParseFail : ReqEnv :=
  ⟨none, none, some "ork", fun _ => .ok "text",
    fun _ => analyze_document_with_openrouter
      ⟨200, "plain text, not JSON", .parseFailure⟩, "doc1", 9⟩

/-- Sample row owned by user `alice`, used by concrete witnesses. -/
def docAlice : DocumentRow := ⟨"d1", "alice", "a.png", "text a", none, 3⟩

/-- Second sample row owned by `alice`, created later than `docAlice`. -/
def docAlice2 : DocumentRow := ⟨"d3", "alice", "c.png", "text c", none, 7⟩

/-- Sample row owned by user `bob`, used by concrete witnesses. -/
def docBob : DocumentRow := ⟨"d2", "bob", "b.png", "text b", none, 5⟩

end DocuVision

namespace DocuVision

/-- Helper: `get_current_user` succeeds on an unexpired token signed with
the verifier's key whose subject is a stored user. -/
theorem get_current_user_ok (users : List UserInDB) (key : String) (now : Nat)
    (t : Jwt) (u : UserInDB) (hkey : t.key = key) (hsub : t.sub = some u.email)
    (hexp : ¬ t.exp < now)
    (hu : users.find? (fun x => decide (x.email = u.email)) = some u) :
    get_current_user users key now t = .ok u := by
  unfold get_current_user jwt_decode
  rw [hkey, if_neg (fun h => h rfl), if_neg hexp]
  simp only [hsub, hu]

/-- Helper: `get_current_user` rejects an expired token. -/
theorem get_current_user_expired (users : List UserInDB) (key : String)
    (now : Nat) (t : Jwt) (hkey : t.key = key) (hexp : t.exp < now) :
    get_current_user users key now t = .error credentials_exception := by
  unfold get_current_user jwt_decode
  rw [hkey, if_neg (fun h => h rfl), if_pos hexp]

/-- Helper: `get_current_user` rejects a token signed with a different key. -/
theorem get_current_user_badkey (users : List UserInDB) (key : String)
    (now : Nat) (t : Jwt) (hkey : t.key ≠ key) :
    get_current_user users key now t = .error credentials_exception := by
  unfold get_current_user jwt_decode
  rw [if_pos hkey]

/-- C3: a token issued by `create_access_token` with `sub` set to a stored
user's email resolves through `get_current_user` to that user while the
expiry has not elapsed; once the expiry has elapsed, or under a key that
differs from the signing key, resolution fails with the 401
`credentials_exception`. -/
theorem token_roundtrip (users : List UserInDB) (key key2 : String)
    (now0 now : Nat) (u : UserInDB) (delta : Option Nat) (tok : Jwt)
    (hu : users.find? (fun x => decide (x.email = u.email)) = some u)
    (htok : tok = create_access_token key now0 (some u.email) delta) :
    (now < tok.exp → get_current_user users key now tok = .ok u) ∧
    (tok.exp < now → get_current_user users key now tok = .error credentials_exception) ∧
    (key2 ≠ key → get_current_user users key2 now tok = .error credentials_exception) := by
  subst htok
  refine ⟨fun hlt => ?_, fun hgt => ?_, fun hk => ?_⟩
  · exact get_current_user_ok users key now _ u rfl rfl
      (Nat.not_lt.mpr (Nat.le_of_lt hlt)) hu
  · exact get_current_user_expired users key now _ rfl hgt
  · exact get_current_user_badkey users key2 now _ (fun h => hk h.symm)

/-- Witness for C3 at a concrete user, key and clock: resolution succeeds
at minute 5 on a token expiring at minute 15, fails at minute 20, and
fails under the wrong key. -/
theorem token_roundtrip_witness :
    (get_current_user [⟨"u1", "a@x.com", "h", true⟩] "k" 5
        (create_access_token "k" 0 (some "a@x.com") none) =
      .ok ⟨"u1", "a@x.com", "h", true⟩) ∧
    (get_current_user [⟨"u1", "a@x.com", "h", true⟩] "k" 20
        (create_access_token "k" 0 (some "a@x.com") none) =
      .error credentials_exception) ∧
    (get_current_user [⟨"u1", "a@x.com", "h", true⟩] "k2" 5
        (create_access_token "k" 0 (some "a@x.com") none) =
      .error credentials_exception) := by
  refine ⟨?_, ?_, ?_⟩
  · exact (token_roundtrip [⟨"u1", "a@x.com", "h", true⟩] "k" "k2" 0 5
      ⟨"u1", "a@x.com", "h", true⟩ none _ (by decide) rfl).1 (by decide)
  · exact (token_roundtrip [⟨"u1", "a@x.com", "h", true⟩] "k" "k2" 0 20
      ⟨"u1", "a@x.com", "h", true⟩ none _ (by decide) rfl).2.1 (by decide)
  · exact (token_roundtrip [⟨"u1", "a@x.com", "h", true⟩] "k" "k2" 0 5
      ⟨"u1", "a@x.com", "h", true⟩ none _ (by decide) rfl).2.2 (by decide)

/-- C9: `create_access_token` without an `expires_delta` sets the expiry
15 minutes from now, which differs from the configured
`jwt_expire_minutes = 30`; only the login endpoint's explicit
`expires_delta` argument makes issued tokens expire 30 minutes out. -/
theorem default_expiry_fifteen (key : String) (now : Nat) (sub : Option String) :
    (create_access_token key now sub none).exp = now + 15 ∧
    (15 : Nat) ≠ jwt_expire_minutes ∧
    (∀ (verify : String → String → Bool) (users : List UserInDB)
        (username password : String) (tok : Jwt),
      login_for_access_token verify users key now username password = .ok tok →
      tok.exp = now + jwt_expire_minutes) := by
  refine ⟨rfl, by decide, ?_⟩
  intro verify users username password tok h
  unfold login_for_access_token at h
  split at h
  · exact absurd h (by simp)
  · split at h
    · cases h
      rfl
    · exact absurd h (by simp)

/-- Witness for C9: a successful login issues a token expiring 30 minutes
from now, while the parameterless path expires 15 minutes from now. -/
theorem default_expiry_fifteen_witness :
    (create_access_token "k" 100 (some "a@x.com") none).exp = 100 + 15 ∧
    (15 : Nat) ≠ jwt_expire_minutes ∧
    (create_access_token "k" 100 (some "a@x.com") (some jwt_expire_minutes)).exp =
      100 + jwt_expire_minutes := by
  refine ⟨(default_expiry_fifteen "k" 100 (some "a@x.com")).1,
    (default_expiry_fifteen "k" 100 (some "a@x.com")).2.1, ?_⟩
  exact (default_expiry_fifteen "k" 100 (some "a@x.com")).2.2
    (fun _ _ => true) [⟨"u1", "a@x.com", "hp", true⟩] "a@x.com" "pw"
    (create_access_token "k" 100 (some "a@x.com") (some jwt_expire_minutes)) rfl

/-- C8: the key forwarded to the OCR provider is the caller-supplied
`ocr_api_key` query parameter when present and non-empty, else the
`OCR_API_KEY` environment value, else the literal `"helloworld"`. -/
theorem ocr_key_selection (q envKey : Option String) (k v : String) :
    (q = some k → k ≠ "" → chooseOcrKey q envKey = k) ∧
    ((q = none ∨ q = some "") → envKey = some v → chooseOcrKey q envKey = v) ∧
    ((q = none ∨ q = some "") → envKey = none → chooseOcrKey q envKey = "helloworld") := by
  refine ⟨fun hq hk => ?_, fun hq he => ?_, fun hq he => ?_⟩
  · subst hq; simp [chooseOcrKey, hk]
  · rcases hq with hq | hq <;> subst hq <;> simp [chooseOcrKey, he]
  · rcases hq with hq | hq <;> subst hq <;> simp [chooseOcrKey, he]

/-- Witness for C8 at concrete inputs: each of the three selection cases. -/
theorem ocr_key_selection_witness :
    chooseOcrKey (some "caller") (some "envk") = "caller" ∧
    chooseOcrKey none (some "envk") = "envk" ∧
    chooseOcrKey (some "") none = "helloworld" := by
  refine ⟨?_, ?_, ?_⟩
  · exact (ocr_key_selection (some "caller") (some "envk") "caller" "envk").1
      rfl (by decide)
  · exact (ocr_key_selection none (some "envk") "caller" "envk").2.1
      (Or.inl rfl) rfl
  · exact (ocr_key_selection (some "") none "caller" "envk").2.2
      (Or.inr rfl) rfl

/-- C4: `list_documents` never returns a record whose owner differs from
the requested user id, and `get_document_endpoint` answers with the same
404 for a record owned by another user as for a nonexistent id (the
hypothesis covers both cases uniformly), never a forbidden response. -/
theorem owner_isolation (db : List DocumentRow) (uid doc_id : String)
    (limit offset : Nat) :
    (∀ r ∈ list_documents db uid limit offset, r.user_id = uid) ∧
    ((∀ r ∈ db, ¬(r.id = doc_id ∧ r.user_id = uid)) →
      get_document_endpoint db doc_id uid = .error document_not_found) := by
  constructor
  · intro r hr
    have h1 : r ∈ ((db.filter (fun r => decide (r.user_id = uid))).insertionSort
        docGE).drop offset := List.mem_of_mem_take hr
    have h2 : r ∈ (db.filter (fun r => decide (r.user_id = uid))).insertionSort
        docGE := List.mem_of_mem_drop h1
    have h3 : r ∈ db.filter (fun r => decide (r.user_id = uid)) :=
      (List.mem_insertionSort docGE).mp h2
    exact of_decide_eq_true (List.mem_filter.mp h3).2
  · intro hnone
    have hfind : db.find?
        (fun r => decide (r.id = doc_id) && decide (r.user_id = uid)) = none := by
      rw [List.find?_eq_none]
      intro r hr
      simp only [Bool.and_eq_true, decide_eq_true_eq, not_and]
      intro h1 h2
      exact hnone r hr ⟨h1, h2⟩
    unfold get_document_endpoint get_document
    rw [hfind]

/-- Witness for C4: with the store holding one of alice's records, a list
for bob returns nothing of alice's, and bob's lookup of alice's record id
is the same 404 as a lookup of a nonexistent id. -/
theorem owner_isolation_witness :
    (∀ r ∈ list_documents [docAlice, docBob] "bob" 10 0, r.user_id = "bob") ∧
    get_document_endpoint [docAlice, docBob] "d1" "bob" =
      .error document_not_found ∧
    get_document_endpoint [docAlice, docBob] "nonexistent" "bob" =
      .error document_not_found := by
  refine ⟨(owner_isolation [docAlice, docBob] "bob" "d1" 10 0).1, ?_, ?_⟩
  · exact (owner_isolation [docAlice, docBob] "bob" "d1" 10 0).2 (by decide)
  · exact (owner_isolation [docAlice, docBob] "bob" "nonexistent" 10 0).2
      (by decide)

/-- C5 counterexample: the claim says a limit exceeding the configured
maximum of 100 is clamped to that maximum; the code instead rejects it
with a 422 validation error, so a limit of 101 does not behave like a
limit of 100. -/
theorem limit_not_clamped :
    list_documents_endpoint [] "u" 101 0 = .error validation_error ∧
    list_documents_endpoint [] "u" 100 0 = .ok [] ∧
    Except.error validation_error ≠
      (.ok [] : Except HttpError (List DocumentRow)) := by
  refine ⟨rfl, rfl, fun h => Except.noConfusion h⟩

/-- C5 (amended): `list_documents_endpoint` returns records ordered by
creation time, most recent first, bounded by `limit` and `offset`; a
limit exceeding the configured maximum (100) is rejected with a
validation error (not clamped), and a non-positive limit is likewise
rejected. -/
theorem list_pagination (db : List DocumentRow) (uid : String)
    (limit offset : Int) :
    (100 < limit →
      list_documents_endpoint db uid limit offset = .error validation_error) ∧
    (limit ≤ 0 →
      list_documents_endpoint db uid limit offset = .error validation_error) ∧
    (∀ l, list_documents_endpoint db uid limit offset = .ok l →
      List.Sorted docGE l ∧ l.length ≤ limit.toNat ∧
      l = list_documents db uid limit.toNat offset.toNat) := by
  refine ⟨fun h => ?_, fun h => ?_, fun l hl => ?_⟩
  · unfold list_documents_endpoint
    rw [if_pos]
    intro hand
    omega
  · unfold list_documents_endpoint
    rw [if_pos]
    intro hand
    omega
  · unfold list_documents_endpoint at hl
    split at hl
    · exact absurd hl (by simp)
    · split at hl
      · exact absurd hl (by simp)
      · cases hl
        refine ⟨?_, ?_, rfl⟩
        · have hs : List.Sorted docGE
              ((db.filter (fun r => decide (r.user_id = uid))).insertionSort
                docGE) := List.sorted_insertionSort docGE _
          have hsub : List.Sublist
              (list_documents db uid limit.toNat offset.toNat)
              ((db.filter (fun r => decide (r.user_id = uid))).insertionSort
                docGE) :=
            (List.take_sublist _ _).trans (List.drop_sublist _ _)
          exact List.Pairwise.sublist hsub hs
        · unfold list_documents
          rw [List.length_take]
          exact Nat.min_le_left _ _

/-- Witness for C5: a limit of 101 and a limit of 0 are both rejected,
and an accepted query returns the sorted, bounded page. -/
theorem list_pagination_witness :
    list_documents_endpoint [docAlice, docBob, docAlice2] "alice" 101 0 =
      .error validation_error ∧
    list_documents_endpoint [docAlice, docBob, docAlice2] "alice" 0 0 =
      .error validation_error ∧
    (List.Sorted docGE (list_documents [docAlice, docBob, docAlice2] "alice"
        (10 : Int).toNat (0 : Int).toNat) ∧
      (list_documents [docAlice, docBob, docAlice2] "alice"
        (10 : Int).toNat (0 : Int).toNat).length ≤ (10 : Int).toNat ∧
      list_documents [docAlice, docBob, docAlice2] "alice"
          (10 : Int).toNat (0 : Int).toNat =
        list_documents [docAlice, docBob, docAlice2] "alice"
          (10 : Int).toNat (0 : Int).toNat) := by
  refine ⟨?_, ?_, ?_⟩
  · exact (list_pagination [docAlice, docBob, docAlice2] "alice" 101 0).1
      (by decide)
  · exact (list_pagination [docAlice, docBob, docAlice2] "alice" 0 0).2.1
      (by decide)
  · exact (list_pagination [docAlice, docBob, docAlice2] "alice" 10 0).2.2
      (list_documents [docAlice, docBob, docAlice2] "alice"
        (10 : Int).toNat (0 : Int).toNat) rfl

/-- Helper: when the running count never exceeds the bound, the
size-counting loop consumes the whole stream and returns the total. -/
theorem sizeScan_complete (maxSize : Nat) (chunks : List (List Nat)) :
    ∀ (acc n : Nat), (sizeScan maxSize acc chunks).1 = .ok n →
      sizeScan maxSize acc chunks = (.ok (acc + totalLen chunks), chunks.length) := by
  induction chunks with
  | nil =>
    intro acc n _
    simp [sizeScan, totalLen]
  | cons c rest ih =>
    intro acc n h
    unfold sizeScan at h ⊢
    by_cases hc : maxSize < acc + c.length
    · rw [if_pos hc] at h
      exact absurd h (by simp)
    · rw [if_neg hc] at h ⊢
      rw [ih (acc + c.length) n h]
      have ht : acc + c.length + totalLen rest = acc + totalLen (c :: rest) := by
        simp only [totalLen, List.map_cons, List.sum_cons]
        omega
      rw [ht]
      rfl

/-- Helper: once the total size exceeds the bound, the loop fails with
the 413. -/
theorem sizeScan_overflow (maxSize : Nat) (chunks : List (List Nat)) :
    ∀ acc : Nat, acc ≤ maxSize → maxSize < acc + totalLen chunks →
      (sizeScan maxSize acc chunks).1 = .error file_too_large := by
  induction chunks with
  | nil =>
    intro acc hle hover
    exfalso
    simp only [totalLen, List.map_nil, List.sum_nil] at hover
    omega
  | cons c rest ih =>
    intro acc hle hover
    unfold sizeScan
    by_cases hc : maxSize < acc + c.length
    · rw [if_pos hc]
    · rw [if_neg hc]
      refine ih (acc + c.length) (Nat.le_of_not_lt hc) ?_
      simp only [totalLen, List.map_cons, List.sum_cons] at hover ⊢
      omega

/-- Helper: when the loop fails it has consumed exactly the shortest
prefix of the stream whose byte count exceeds the bound: the consumed
prefix exceeds it and every proper prefix of that stays within it. -/
theorem sizeScan_stop (maxSize : Nat) (chunks : List (List Nat)) :
    ∀ (acc : Nat) (e : HttpError) (n : Nat), acc ≤ maxSize →
      sizeScan maxSize acc chunks = (.error e, n) →
      maxSize < acc + totalLen (chunks.take n) ∧
      ∀ m < n, acc + totalLen (chunks.take m) ≤ maxSize := by
  induction chunks with
  | nil =>
    intro acc e n hle h
    exact absurd h (by simp [sizeScan])
  | cons c rest ih =>
    intro acc e n hle h
    unfold sizeScan at h
    by_cases hc : maxSize < acc + c.length
    · rw [if_pos hc] at h
      injection h with h1 h2
      subst h2
      constructor
      · simp only [List.take_succ_cons, List.take_zero, totalLen,
          List.map_cons, List.map_nil, List.sum_cons, List.sum_nil]
        omega
      · intro m hm
        have hm0 : m = 0 := by omega
        subst hm0
        simpa [totalLen] using hle
    · rw [if_neg hc] at h
      cases hrec : sizeScan maxSize (acc + c.length) rest with
      | mk r1 r2 =>
        rw [hrec] at h
        injection h with h1 h2
        have h1' : r1 = Except.error e := h1
        have h2' : r2 + 1 = n := h2
        subst h2'
        rw [h1'] at hrec
        obtain ⟨ha, hb⟩ := ih (acc + c.length) e r2 (Nat.le_of_not_lt hc) hrec
        constructor
        · simp only [List.take_succ_cons, totalLen, List.map_cons,
            List.sum_cons]
          simp only [totalLen] at ha
          omega
        · intro m hm
          cases m with
          | zero => simpa [totalLen] using hle
          | succ m2 =>
            have := hb m2 (by omega)
            simp only [List.take_succ_cons, totalLen, List.map_cons,
              List.sum_cons] at this ⊢
            omega

/-- C6: an upload whose total size exceeds the configured maximum fails
with the 413 before any temporary file or document record appears (the
server state is returned untouched), and the size-counting loop stops
the instant the running count first exceeds the bound: it consumes the
shortest excessive prefix of the stream, never the whole body. -/
theorem oversize_rejected (env : ReqEnv) (user : UserInDB)
    (st : ServerState) (file : UploadFile) (hpos : file.pos = 0)
    (hname : ¬ file.filename = "")
    (htype : allowed_file_types.contains file.contentType = true)
    (hsize : max_file_size < totalLen file.chunks) :
    handle_upload env user file st = (.error file_too_large, st) ∧
    (∀ (maxSize : Nat) (chunks : List (List Nat)) (e : HttpError) (n : Nat),
      sizeScan maxSize 0 chunks = (.error e, n) →
      maxSize < totalLen (chunks.take n) ∧
      ∀ m < n, totalLen (chunks.take m) ≤ maxSize) := by
  constructor
  · have hscan : (sizeScan max_file_size 0 file.chunks).1 =
        .error file_too_large :=
      sizeScan_overflow max_file_size file.chunks 0 (Nat.zero_le _)
        (by simpa using hsize)
    have hval : validate_file file = .error file_too_large := by
      unfold validate_file
      rw [if_neg hname, if_neg (fun hc => hc htype), hpos, List.drop_zero,
        hscan]
    unfold handle_upload
    rw [hval]
  · intro maxSize chunks e n h
    have := sizeScan_stop maxSize chunks 0 e n (Nat.zero_le _) h
    simpa using this

/-- Witness for C6: the one-chunk upload of `max_file_size + 1` bytes is
rejected with the 413 leaving the state untouched, and on a small
concrete stream the loop stops after the second of three chunks, the
first crossing point. -/
theorem oversize_rejected_witness :
    handle_upload envNoAnalysis userW bigFile stEmpty =
      (.error file_too_large, stEmpty) ∧
    (5 < totalLen ([[0, 0, 0], [0, 0, 0], [9]].take 2) ∧
      ∀ m < 2, totalLen ([[0, 0, 0], [0, 0, 0], [9]].take m) ≤ 5) := by
  constructor
  · exact (oversize_rejected envNoAnalysis userW stEmpty bigFile rfl
      (by decide) (by decide)
      (by simp [bigFile, totalLen])).1
  · exact (oversize_rejected envNoAnalysis userW stEmpty bigFile rfl
      (by decide) (by decide)
      (by simp [bigFile, totalLen])).2 5 [[0, 0, 0], [0, 0, 0], [9]]
      file_too_large 2 rfl

/-- C10: when `validate_file` succeeds the stream is repositioned to
offset 0 with its content untouched, so the bytes subsequently written
to the temporary file are the complete uploaded content — and the size
counting consumed exactly that whole content. -/
theorem stream_rewound (file f2 : UploadFile) (hpos : file.pos = 0)
    (hv : validate_file file = .ok f2) :
    f2.pos = 0 ∧ f2.chunks = file.chunks ∧
    readRemaining f2 = file.chunks.flatten ∧
    sizeScan max_file_size 0 file.chunks =
      (.ok (totalLen file.chunks), file.chunks.length) := by
  unfold validate_file at hv
  rw [hpos, List.drop_zero] at hv
  split at hv
  · exact absurd hv (by simp)
  · split at hv
    · exact absurd hv (by simp)
    · cases hscan : (sizeScan max_file_size 0 file.chunks).1 with
      | error e =>
        rw [hscan] at hv
        exact absurd hv (by simp)
      | ok nsize =>
        rw [hscan] at hv
        have hf2 : Except.ok { file with pos := 0 } = Except.ok f2 := hv
        injection hf2 with hf2'
        subst hf2'
        refine ⟨rfl, rfl, ?_, ?_⟩
        · unfold readRemaining
          simp
        · have := sizeScan_complete max_file_size file.chunks 0 nsize hscan
          rwa [Nat.zero_add] at this

/-- Witness for C10 on a concrete two-chunk upload. -/
theorem stream_rewound_witness :
    validate_file fileSmall = .ok fileSmall ∧
    (fileSmall.pos = 0 ∧ fileSmall.chunks = fileSmall.chunks ∧
      readRemaining fileSmall = fileSmall.chunks.flatten ∧
      sizeScan max_file_size 0 fileSmall.chunks =
        (.ok (totalLen fileSmall.chunks), fileSmall.chunks.length)) :=
  ⟨rfl, stream_rewound fileSmall fileSmall rfl rfl⟩

/-- C7: `ocr_space_extract` maps provider outcomes exactly: timeout to
the 504, a non-2xx status to the 502, a set processing-error flag to a
422 carrying the provider's message, zero parsed results to a 422, and
otherwise the first parsed result's text is returned verbatim. -/
theorem ocr_failure_mapping (st : Nat) (body : OcrBody) (msg t : String)
    (rest : List String) :
    ocr_space_extract .timeout = .error ocr_timeout ∧
    (¬ is_success st →
      ocr_space_extract (.response st body) = .error ocr_unavailable) ∧
    (is_success st → body.isErroredOnProcessing = true →
      body.errorMessage = some msg →
      ocr_space_extract (.response st body) =
        .error ⟨422, "OCR error: " ++ msg⟩) ∧
    (is_success st → body.isErroredOnProcessing = false →
      body.parsedResults = [] →
      ocr_space_extract (.response st body) = .error no_text_detected) ∧
    (is_success st → body.isErroredOnProcessing = false →
      body.parsedResults = t :: rest →
      ocr_space_extract (.response st body) = .ok t) := by
  refine ⟨rfl, fun h => ?_, fun h he hm => ?_, fun h he hp => ?_,
    fun h he hp => ?_⟩
  · show (if ¬ is_success st then Except.error ocr_unavailable else _) = _
    rw [if_pos h]
  · show (if ¬ is_success st then Except.error ocr_unavailable else _) = _
    rw [if_neg (not_not_intro h), if_pos he, hm]
    rfl
  · show (if ¬ is_success st then Except.error ocr_unavailable else _) = _
    rw [if_neg (not_not_intro h), if_neg (by simp [he]), hp]
  · show (if ¬ is_success st then Except.error ocr_unavailable else _) = _
    rw [if_neg (not_not_intro h), if_neg (by simp [he]), hp]

/-- Witness for C7: each of the five provider outcomes at a concrete
reply. -/
theorem ocr_failure_mapping_witness :
    ocr_space_extract .timeout = .error ocr_timeout ∧
    ocr_space_extract (.response 500 ⟨false, none, ["x"]⟩) =
      .error ocr_unavailable ∧
    ocr_space_extract (.response 200 ⟨true, some "bad image", []⟩) =
      .error ⟨422, "OCR error: " ++ "bad image"⟩ ∧
    ocr_space_extract (.response 200 ⟨false, none, []⟩) =
      .error no_text_detected ∧
    ocr_space_extract (.response 200 ⟨false, none, ["hello", "y"]⟩) =
      .ok "hello" := by
  refine ⟨?_, ?_, ?_, ?_, ?_⟩
  · exact (ocr_failure_mapping 200 ⟨false, none, ["x"]⟩ "m" "t" []).1
  · exact (ocr_failure_mapping 500 ⟨false, none, ["x"]⟩ "m" "t" []).2.1
      (by decide)
  · exact (ocr_failure_mapping 200 ⟨true, some "bad image", []⟩
      "bad image" "t" []).2.2.1 (by decide) rfl rfl
  · exact (ocr_failure_mapping 200 ⟨false, none, []⟩ "m" "t" []).2.2.2.1
      (by decide) rfl rfl
  · exact (ocr_failure_mapping 200 ⟨false, none, ["hello", "y"]⟩ "m"
      "hello" ["y"]).2.2.2.2 (by decide) rfl rfl

/-- C1 counterexample: an analysis reply whose text cannot be parsed as
the expected JSON does not yield a degraded result —
`analyze_document_with_openrouter` raises the 422, the upload request
carrying that outcome fails with it, and no document record is stored. -/
theorem analysis_not_degraded :
    analyze_document_with_openrouter
        ⟨200, "plain text, not JSON", .parseFailure⟩ =
      .error invalid_ai_response ∧
    (handle_upload envParseFail userW fileSmall stEmpty).1 =
      .error invalid_ai_response ∧
    (handle_upload envParseFail userW fileSmall stEmpty).2.docs = [] :=
  ⟨rfl, rfl, rfl⟩

/-- C1 (amended): a provider reply whose text cannot be parsed as the
expected JSON structure makes `analyze_document_with_openrouter` fail
with the 422 `invalid_ai_response`; when the analysis stage of an upload
fails that way, the whole request fails with that error and no document
record is created. -/
theorem analysis_parse_failure_fails (reply : AnalysisReply) (env : ReqEnv)
    (user : UserInDB) (file f2 : UploadFile) (st : ServerState)
    (text k : String) :
    (is_success reply.statusCode → reply.parse = .parseFailure →
      analyze_document_with_openrouter reply = .error invalid_ai_response) ∧
    (env.openrouterKey = some k →
      env.ocrCall (chooseOcrKey env.ocr_api_key env.ocrEnvKey) = .ok text →
      env.analysisCall text = .error invalid_ai_response →
      validate_file file = .ok f2 →
      (handle_upload env user file st).1 = .error invalid_ai_response ∧
      (handle_upload env user file st).2.docs = st.docs) := by
  constructor
  · intro hs hp
    unfold analyze_document_with_openrouter
    rw [if_neg (not_not_intro hs), hp]
  · intro hk hocr hana hval
    unfold handle_upload
    rw [hval]
    constructor <;>
      simp only [create_document_endpoint, hocr, analysisStage, hk, hana,
        Except.map, finish_request]

/-- Witness for C1 (amended): a concrete unparseable reply fails with
the 422, and the concrete upload around it fails storing nothing. -/
theorem analysis_parse_failure_fails_witness :
    analyze_document_with_openrouter ⟨200, "oops", .parseFailure⟩ =
      .error invalid_ai_response ∧
    ((handle_upload envParseFail userW fileSmall stEmpty).1 =
        .error invalid_ai_response ∧
      (handle_upload envParseFail userW fileSmall stEmpty).2.docs =
        stEmpty.docs) := by
  constructor
  · exact (analysis_parse_failure_fails ⟨200, "oops", .parseFailure⟩
      envParseFail userW fileSmall fileSmall stEmpty "text" "ork").1
      (by decide) rfl
  · exact (analysis_parse_failure_fails ⟨200, "oops", .parseFailure⟩
      envParseFail userW fileSmall fileSmall stEmpty "text" "ork").2
      rfl rfl rfl rfl

/-- Helper: the endpoint body always creates the temporary file and
schedules its cleanup, whatever the downstream outcome. -/
theorem create_document_endpoint_state (env : ReqEnv) (user : UserInDB)
    (f : UploadFile) (st : ServerState) :
    (create_document_endpoint env user f st).2.tempFileExists = true ∧
    (create_document_endpoint env user f st).2.cleanupScheduled = true := by
  constructor
  all_goals
    simp only [create_document_endpoint]
    split
    · rfl
    · split <;> rfl

/-- Helper: `finish_request` never changes the response. -/
theorem finish_request_fst (out : Except HttpError UploadData × ServerState) :
    (finish_request out).1 = out.1 := by
  unfold finish_request
  split <;> rfl

/-- Helper: when the endpoint returned a response, the attached cleanup
task runs after it is sent. -/
theorem finish_request_ok (out : Except HttpError UploadData × ServerState)
    (d : UploadData) (h : out.1 = .ok d)
    (hs : out.2.cleanupScheduled = true) :
    (finish_request out).2.tempFileExists = false := by
  unfold finish_request cleanup_file
  rw [h]
  simp [hs]

/-- Helper: when the endpoint raised, no background task runs and the
state is returned as the endpoint left it. -/
theorem finish_request_err (out : Except HttpError UploadData × ServerState)
    (e : HttpError) (h : out.1 = .error e) : finish_request out = out := by
  unfold finish_request
  rw [h]

/-- C2 counterexample: when the OCR stage fails after the temporary file
was created, the scheduled background cleanup never runs, so the file is
still present once the request has completed — deletion is not triggered
on this exit path. -/
theorem cleanup_skipped_on_error :
    (handle_upload envOcrFail userW fileSmall stEmpty).1 =
      .error ocr_unavailable ∧
    (handle_upload envOcrFail userW fileSmall stEmpty).2.tempFileExists =
      true :=
  ⟨rfl, rfl⟩

/-- C2 (amended): when the request succeeds the temporary file is
deleted by the background task exactly once; when a failure is raised
after the file was created (OCR, analysis or database error) the
scheduled cleanup does not run and the file remains; when validation
fails no temporary file is ever created. -/
theorem temp_file_lifecycle (env : ReqEnv) (user : UserInDB)
    (file : UploadFile) (st : ServerState) :
    (∀ d, (handle_upload env user file st).1 = .ok d →
      (handle_upload env user file st).2.tempFileExists = false) ∧
    (∀ f2, validate_file file = .ok f2 →
      ∀ e, (handle_upload env user file st).1 = .error e →
        (handle_upload env user file st).2.tempFileExists = true) ∧
    (∀ e, validate_file file = .error e →
      (handle_upload env user file st).2 = st) := by
  refine ⟨?_, ?_, ?_⟩
  · intro d hd
    unfold handle_upload at hd ⊢
    cases hval : validate_file file with
    | error e0 =>
      rw [hval] at hd
      exact absurd hd (by simp)
    | ok f2 =>
      rw [hval] at hd
      have hd2 : (finish_request (create_document_endpoint env user f2 st)).1 =
          .ok d := hd
      have h1 : (create_document_endpoint env user f2 st).1 = .ok d := by
        rw [← finish_request_fst]
        exact hd2
      show (finish_request (create_document_endpoint env user f2 st)).2.tempFileExists = false
      exact finish_request_ok _ d h1
        (create_document_endpoint_state env user f2 st).2
  · intro f2 hval e he
    unfold handle_upload at he ⊢
    rw [hval] at he ⊢
    have he2 : (finish_request (create_document_endpoint env user f2 st)).1 =
        .error e := he
    have h1 : (create_document_endpoint env user f2 st).1 = .error e := by
      rw [← finish_request_fst]
      exact he2
    show (finish_request (create_document_endpoint env user f2 st)).2.tempFileExists = true
    rw [finish_request_err _ e h1]
    exact (create_document_endpoint_state env user f2 st).1
  · intro e hval
    unfold handle_upload
    rw [hval]

/-- Witness for C2 (amended): a successful upload ends with the file
deleted, an OCR failure leaves it behind, and a validation failure
leaves the state untouched. -/
theorem temp_file_lifecycle_witness :
    (handle_upload envNoAnalysis userW fileSmall stEmpty).2.tempFileExists =
      false ∧
    (handle_upload envOcrFail userW fileSmall stEmpty).2.tempFileExists =
      true ∧
    (handle_upload envNoAnalysis userW fileNoName stEmpty).2 = stEmpty := by
  refine ⟨?_, ?_, ?_⟩
  · exact (temp_file_lifecycle envNoAnalysis userW fileSmall stEmpty).1
      ⟨"doc1", "a.png", "text", none⟩ rfl
  · exact (temp_file_lifecycle envOcrFail userW fileSmall stEmpty).2.1
      fileSmall rfl ocr_unavailable rfl
  · exact (temp_file_lifecycle envNoAnalysis userW fileNoName stEmpty).2.2
      no_file_uploaded rfl

end DocuVision
